import Mathlib

/-!
Verification of the multi-tier caching core of the lru-caching-server
repository (src/cache.js and src/index.js): the Local Bounded Cache (L1),
the optional Shared Cache (L2, a Redis client), the Durable Store, and the
Read/Write Orchestrator exposed as GET /v1/items/:id and POST /v1/items.
-/

/-- The domain record as defined by the Sequelize model in src/index.js:
`id` is an auto-incrementing integer primary key, `name` a non-null string,
`value` a nullable TEXT column (absent or null modelled as `none`). -/
structure Item where
  id : Nat
  name : String
  value : Option String
deriving Repr, DecidableEq

/-- Modelled from the spec: the Local Bounded Cache (L1) of section 4.1.
The repository delegates L1 to the external lru-cache npm package (only its
configuration, in src/cache.js, is repository code), so the container is
modelled from the spec contract: a recency-ordered association list, most
recently used first, bounded by `max`, with strict least-recently-used
eviction.  No claim advances time, and expiry is lazy, so the time-to-live
axis is omitted: with no elapsed time no entry ever expires. -/
structure LRU where
  max : Nat
  entries : List (String × Item)
deriving Repr, DecidableEq

/-- Keys resident in L1, most recently used first. -/
def LRU.keys (c : LRU) : List String := c.entries.map Prod.fst

/-- Count of resident entries (spec 4.1 `size`). -/
def LRU.size (c : LRU) : Nat := c.entries.length

/-- Spec 4.1 `get`: return the cached item if present, promoting the
entry to most-recently-used; on a miss return the cache unchanged. -/
def LRU.get (c : LRU) (k : String) : Option Item × LRU :=
  match c.entries.find? (fun e => e.1 == k) with
  | none => (none, c)
  | some e => (some e.2, ⟨c.max, e :: c.entries.filter (fun x => x.1 != k)⟩)

/-- Spec 4.1 `set`: insert or overwrite at the most-recent position, then
evict from the least-recently-used end while over capacity. -/
def LRU.set (c : LRU) (k : String) (v : Item) : LRU :=
  ⟨c.max, ((k, v) :: c.entries.filter (fun x => x.1 != k)).take c.max⟩

/-- The Shared Cache (L2) key space: Redis SET overwrites the key.  The
code stores JSON.stringify(item) and the read path JSON.parse-s it back;
for records of the Item shape this round trip is the identity on the
fields, so entries are modelled decoded. -/
def l2put (l2 : List (String × Item)) (k : String) (v : Item) :
    List (String × Item) :=
  (k, v) :: l2.filter (fun x => x.1 != k)

/-- Whole-process state touched by the two routes of src/index.js:
the L1 cache, the Shared Cache (its reachability and its entries), the
Durable Store table with its auto-increment counter, and the two
Prometheus counters cache_hits_total / cache_misses_total. -/
structure SysState where
  l1 : LRU
  l2avail : Bool
  l2 : List (String × Item)
  store : List Item
  nextId : Nat
  hits : Nat
  misses : Nat
deriving Repr, DecidableEq

/-- Durable Store lookup by primary key (Item.findByPk): the request
parameter is a string, the primary key an integer, matched here through
its decimal rendering. -/
def storeFind (store : List Item) (id : String) : Option Item :=
  store.find? (fun it => toString it.id == id)

/-- Which tier satisfied a read.  The constructors follow the spec's tier
vocabulary; the literal strings the handler sends in the JSON body are
respectively: memory for the string memory, shared for the string redis,
store for the string db. -/
inductive Source
  | memory
  | shared
  | store
deriving Repr, DecidableEq

/-- Outcome of the GET /v1/items/:id handler.  `l2Error` is the case in
which the awaited redis.get call rejects: the handler body has no
try/catch, so the rejection escapes the async handler and no JSON
response is produced. -/
inductive ReadResult
  | ok (src : Source) (item : Item)
  | notFound
  | l2Error
deriving Repr, DecidableEq

/-- Which backing tiers a single read operation actually queried. -/
structure ReadEffects where
  l2Queried : Bool
  storeQueried : Bool
deriving Repr, DecidableEq

/-- The GET /v1/items/:id handler (src/index.js lines 110-121):
stage 1 queries L1 and on a hit increments the hit counter; stage 2
awaits redis.get, and on a hit parses, populates L1 and increments the
hit counter; otherwise the miss counter is incremented and the Durable
Store is queried, a miss yielding 404 and a hit populating L1 and L2 on
the way back.  When the Shared Cache is unreachable the awaited
redis.get rejects and the handler aborts with no further state change
(`l2avail = false` branch). -/
def readItem (st : SysState) (id : String) :
    ReadResult × SysState × ReadEffects :=
  match st.l1.get id with
  | (some item, l1p) =>
      (.ok .memory item, { st with l1 := l1p, hits := st.hits + 1 },
        ⟨false, false⟩)
  | (none, _) =>
      if st.l2avail then
        match st.l2.lookup id with
        | some parsed =>
            (.ok .shared parsed,
              { st with l1 := st.l1.set id parsed, hits := st.hits + 1 },
              ⟨true, false⟩)
        | none =>
            match storeFind st.store id with
            | none =>
                (.notFound, { st with misses := st.misses + 1 },
                  ⟨true, true⟩)
            | some item =>
                (.ok .store item,
                  { st with
                      l1 := st.l1.set id item,
                      l2 := l2put st.l2 id item,
                      misses := st.misses + 1 },
                  ⟨true, true⟩)
      else
        (.l2Error, st, ⟨true, false⟩)

/-- A JSON value as far as the request-body schema distinguishes them. -/
inductive JsVal
  | jstr (s : String)
  | jnum (n : Int)
  | jbool (b : Bool)
  | jnull
  | jobj
deriving Repr, DecidableEq

/-- A POST /v1/items request body: each recognized field either absent or
holding a JSON value. -/
structure Body where
  name : Option JsVal
  value : Option JsVal
deriving Repr, DecidableEq

/-- The Joi schema of src/index.js line 152 —
name: Joi.string().required() (a Joi string rejects non-strings and, by
default, the empty string), value: Joi.string().allow two extra values,
the empty string and null.  On success the validated payload carries the
name and the optional value (null and absent both becoming a NULL
column, hence `none`).  Joi aborts at the first failing key, name before
value. -/
def schemaValidate (b : Body) : Except String (String × Option String) :=
  match b.name with
  | none => .error "name is required"
  | some (.jstr s) =>
      if s = "" then .error "name is not allowed to be empty"
      else
        match b.value with
        | none => .ok (s, none)
        | some .jnull => .ok (s, none)
        | some (.jstr v) => .ok (s, some v)
        | some _ => .error "value must be a string"
  | some _ => .error "name must be a string"

/-- Outcome of the POST /v1/items handler: 201 with the created record,
or 400 with the Joi message. -/
inductive CreateResult
  | created (item : Item)
  | badRequest (msg : String)
deriving Repr, DecidableEq

/-- The POST /v1/items handler (src/index.js lines 153-160): validate the
body against the Joi schema, returning 400 on error before any store or
cache access; otherwise insert into the Durable Store (which assigns the
next id), populate L1 under key newItem.id.toString(), issue the
fire-and-forget redis.set (a no-op when the Shared Cache is down), and
answer 201 with the record. -/
def createItem (st : SysState) (b : Body) : CreateResult × SysState :=
  match schemaValidate b with
  | .error msg => (.badRequest msg, st)
  | .ok (nm, v) =>
      let item : Item := ⟨st.nextId, nm, v⟩
      let key := toString item.id
      (.created item,
        { st with
            store := st.store ++ [item],
            nextId := st.nextId + 1,
            l1 := st.l1.set key item,
            l2 := if st.l2avail then l2put st.l2 key item else st.l2 })

/-- The shared-cache configuration the process recognizes: the optional
REDIS_HOST environment entry. -/
structure Config where
  redisHost : Option String
deriving Repr, DecidableEq

/-- src/index.js line 38: the Redis client is constructed unconditionally,
its host defaulting to 127.0.0.1 when REDIS_HOST is absent.  No
configuration value disables the client. -/
def l2Endpoint (cfg : Config) : String := cfg.redisHost.getD "127.0.0.1"

/-- The read route as a function of the configuration: the handler closes
over the unconditionally constructed Redis client and never consults the
configuration, so the configuration argument is ignored. -/
def handleRead (_cfg : Config) (st : SysState) (id : String) :
    ReadResult × SysState × ReadEffects :=
  readItem st id

/-! ## Helper lemmas about the L1 container -/

theorem LRU.set_max (c : LRU) (k : String) (v : Item) :
    (c.set k v).max = c.max := rfl

theorem LRU.set_size_le (c : LRU) (k : String) (v : Item) :
    (c.set k v).size ≤ c.max := by
  simp [LRU.set, LRU.size]

theorem LRU.foldl_size_le (ops : List (String × Item)) (c : LRU)
    (h : c.size ≤ c.max) :
    (ops.foldl (fun a p => a.set p.1 p.2) c).size ≤ c.max := by
  induction ops generalizing c with
  | nil => simpa using h
  | cons p rest ih =>
      simpa [List.foldl_cons] using ih (c.set p.1 p.2) (c.set_size_le p.1 p.2)

theorem LRU.filter_ne_of_not_mem (c : LRU) (k : String) (h : k ∉ c.keys) :
    c.entries.filter (fun x => x.1 != k) = c.entries := by
  rw [List.filter_eq_self]
  intro a ha
  simp only [bne_iff_ne, ne_eq]
  intro hk
  simp only [LRU.keys] at h
  exact h (hk ▸ List.mem_map_of_mem Prod.fst ha)

theorem LRU.get_set_self (c : LRU) (k : String) (v : Item) (h : 0 < c.max) :
    ((c.set k v).get k).1 = some v := by
  obtain ⟨m, hm⟩ : ∃ m, c.max = m + 1 := ⟨c.max - 1, by omega⟩
  simp [LRU.set, LRU.get, hm]

theorem LRU.get_miss_eq (c : LRU) (k : String) (h : (c.get k).1 = none) :
    c.get k = (none, c) := by
  unfold LRU.get at h ⊢
  cases hf : c.entries.find? (fun e => e.1 == k) with
  | none => rfl
  | some e => rw [hf] at h; simp at h

/-- C2: for every sequence of L1 `set` calls the resident count never
exceeds the configured `max`, and when a new key is inserted into a cache
at capacity the evicted entry is exactly the least-recently-accessed
resident one (the last entry of the recency order): all other residents
survive, the new entry becomes most recent. -/
theorem claim_C2_l1_capacity_lru (max : Nat) (ops : List (String × Item))
    (c : LRU) (k : String) (v : Item)
    (hmax : 0 < c.max) (hfull : c.size = c.max) (hnew : k ∉ c.keys) :
    (ops.foldl (fun a p => a.set p.1 p.2) (LRU.mk max [])).size ≤ max ∧
    (c.set k v).entries = (k, v) :: c.entries.dropLast := by
  constructor
  · exact LRU.foldl_size_le ops (LRU.mk max []) (by simp [LRU.size])
  · obtain ⟨m, hm⟩ : ∃ m, c.max = m + 1 := ⟨c.max - 1, by omega⟩
    have hlen : c.entries.length = m + 1 := by
      simpa [LRU.size, hm] using hfull
    simp only [LRU.set, c.filter_ne_of_not_mem k hnew, hm,
      List.take_succ_cons, List.dropLast_eq_take, hlen]
    simp

/-- Concrete run of C2: a two-entry cache of capacity two receives a third
key; the bound holds for a sample sequence and the evicted entry is the
least recently used one. -/
theorem claim_C2_l1_capacity_lru_witness :
    0 < (LRU.mk 2 [("a", ⟨1, "a", none⟩), ("b", ⟨2, "b", none⟩)]).max ∧
    (LRU.mk 2 [("a", ⟨1, "a", none⟩), ("b", ⟨2, "b", none⟩)]).size =
      (LRU.mk 2 [("a", ⟨1, "a", none⟩), ("b", ⟨2, "b", none⟩)]).max ∧
    "c" ∉ (LRU.mk 2 [("a", ⟨1, "a", none⟩), ("b", ⟨2, "b", none⟩)]).keys ∧
    (([("x", ⟨3, "x", none⟩), ("y", ⟨4, "y", none⟩), ("z", ⟨5, "z", none⟩)].foldl
        (fun a p => a.set p.1 p.2) (LRU.mk 2 [])).size ≤ 2 ∧
      ((LRU.mk 2 [("a", ⟨1, "a", none⟩), ("b", ⟨2, "b", none⟩)]).set "c"
          ⟨6, "c", none⟩).entries =
        ("c", ⟨6, "c", none⟩) ::
          (LRU.mk 2 [("a", ⟨1, "a", none⟩), ("b", ⟨2, "b", none⟩)]).entries.dropLast) :=
  ⟨by decide, by decide, by decide,
    claim_C2_l1_capacity_lru 2
      [("x", ⟨3, "x", none⟩), ("y", ⟨4, "y", none⟩), ("z", ⟨5, "z", none⟩)]
      (LRU.mk 2 [("a", ⟨1, "a", none⟩), ("b", ⟨2, "b", none⟩)]) "c"
      ⟨6, "c", none⟩ (by decide) (by decide) (by decide)⟩

/-! ## Branch lemmas for the read handler -/

theorem readItem_memory_hit (st : SysState) (id : String) (it : Item)
    (h : (st.l1.get id).1 = some it) :
    readItem st id =
      (.ok .memory it,
        { st with l1 := (st.l1.get id).2, hits := st.hits + 1 },
        ⟨false, false⟩) := by
  unfold readItem
  rcases hp : st.l1.get id with ⟨o, c⟩
  rw [hp] at h
  cases o with
  | none => simp at h
  | some x =>
      simp only [Option.some.injEq] at h
      subst h
      simp [hp]

theorem readItem_store_hit (st : SysState) (id : String) (it : Item)
    (hl1 : (st.l1.get id).1 = none)
    (hl2a : st.l2avail = true)
    (hl2 : st.l2.lookup id = none)
    (hdb : storeFind st.store id = some it) :
    readItem st id =
      (.ok .store it,
        { st with
            l1 := st.l1.set id it,
            l2 := l2put st.l2 id it,
            misses := st.misses + 1 },
        ⟨true, true⟩) := by
  unfold readItem
  rw [st.l1.get_miss_eq id hl1]
  simp [hl2a, hl2, hdb]

/-- C3: for an id present in the Durable Store but absent from both L1 and
L2 (the Shared Cache being reachable), Read-item returns the item from the
store tier (the handler's literal source string is db), and an immediately
subsequent Read-item for the same id is served by L1 (source memory),
because the first read populated L1 on the way back. -/
theorem claim_C3_read_fallback (st : SysState) (id : String) (it : Item)
    (hmax : 0 < st.l1.max)
    (hl1 : (st.l1.get id).1 = none)
    (hl2a : st.l2avail = true)
    (hl2 : st.l2.lookup id = none)
    (hdb : storeFind st.store id = some it) :
    (readItem st id).1 = ReadResult.ok Source.store it ∧
    (readItem (readItem st id).2.1 id).1 = ReadResult.ok Source.memory it := by
  rw [readItem_store_hit st id it hl1 hl2a hl2 hdb]
  refine ⟨rfl, ?_⟩
  rw [readItem_memory_hit _ id it (st.l1.get_set_self id it hmax)]

/-- State for the C3 witness: item 1 only in the Durable Store. -/
def c3w : SysState := ⟨⟨2, []⟩, true, [], [⟨1, "foo", some "bar"⟩], 2, 0, 0⟩

/-- Concrete run of C3: reading id 1 from c3w hits the store, an immediate
second read hits L1. -/
theorem claim_C3_read_fallback_witness :
    (0 < c3w.l1.max ∧ (c3w.l1.get ("1")).1 = none ∧ c3w.l2avail = true ∧
      c3w.l2.lookup ("1") = none ∧
      storeFind c3w.store ("1") = some ⟨1, "foo", some "bar"⟩) ∧
    (readItem c3w ("1")).1 = ReadResult.ok Source.store ⟨1, "foo", some "bar"⟩ ∧
    (readItem (readItem c3w ("1")).2.1 ("1")).1 =
      ReadResult.ok Source.memory ⟨1, "foo", some "bar"⟩ :=
  ⟨⟨by decide, by decide, by decide, by decide, by decide⟩,
    claim_C3_read_fallback c3w ("1") ⟨1, "foo", some "bar"⟩
      (by decide) (by decide) (by decide) (by decide) (by decide)⟩

/-- State for C1: item 1 in the Durable Store, L1 empty, the Shared Cache
unreachable (its awaited get call rejects). -/
def c1w : SysState := ⟨⟨100, []⟩, false, [], [⟨1, "foo", some "bar"⟩], 2, 0, 0⟩

/-- C1 (refuted by the code): with id 1 present in the Durable Store and
the Shared Cache unreachable, the handler does not succeed with the store
tier — the awaited redis.get rejection escapes the handler (src/index.js
line 114 has no try/catch), so the read aborts and no further stage runs:
the operation fails instead of returning the item with source db. -/
theorem claim_C1_l2_failure_propagates :
    (storeFind c1w.store ("1")).isSome = true ∧
    c1w.l2avail = false ∧
    (readItem c1w ("1")).1 = ReadResult.l2Error ∧
    (readItem c1w ("1")).1 ≠ ReadResult.ok Source.store ⟨1, "foo", some "bar"⟩ := by
  refine ⟨by decide, rfl, by decide, by decide⟩

/-- State for C4: L1 empty, item 1 in the Durable Store. -/
def c4w : SysState := ⟨⟨100, []⟩, true, [], [⟨1, "foo", some "bar"⟩], 2, 0, 0⟩

/-- C4 as stated is false at this input: with no shared-cache endpoint
configured (REDIS_HOST absent), a Read-item for an id that misses L1 still
performs an L2 lookup — the claim says no L2 lookup is attempted. -/
theorem claim_C4_l2_not_disabled_countereg :
    (Config.mk none).redisHost = none ∧
    (handleRead (Config.mk none) c4w ("1")).2.2.l2Queried = true :=
  ⟨rfl, by decide⟩

/-- C4 amended: no configuration disables the L2 tier.  For every
configuration (the shared-cache endpoint merely defaults to 127.0.0.1
when absent), the read handler attempts the L2 lookup exactly when L1
misses, so reads never degrade to the 2-stage chain L1 then store. -/
theorem claim_C4_l2_always_enabled (cfg : Config) (st : SysState)
    (id : String) :
    (handleRead cfg st id).2.2.l2Queried = ((st.l1.get id).1).isNone ∧
    l2Endpoint (Config.mk none) = "127.0.0.1" := by
  refine ⟨?_, rfl⟩
  unfold handleRead readItem
  rcases hp : st.l1.get id with ⟨o, c⟩
  cases o with
  | some x => simp [hp]
  | none =>
      by_cases ha : st.l2avail
      · cases hl : st.l2.lookup id with
        | some p => simp [hp, ha, hl]
        | none => cases hd : storeFind st.store id <;> simp [hp, ha, hl, hd]
      · simp [hp, ha]

/-- A successful create populates L1 under the string form of the assigned
id, so the immediately following read is an L1 hit that queries neither
the Shared Cache nor the Durable Store. -/
theorem create_then_read (st : SysState) (b : Body) (nm : String)
    (v : Option String)
    (hval : schemaValidate b = Except.ok (nm, v)) (hmax : 0 < st.l1.max) :
    (createItem st b).1 = CreateResult.created ⟨st.nextId, nm, v⟩ ∧
    (readItem (createItem st b).2 (toString st.nextId)).1 =
      ReadResult.ok Source.memory ⟨st.nextId, nm, v⟩ ∧
    (readItem (createItem st b).2 (toString st.nextId)).2.2.storeQueried
        = false ∧
    (readItem (createItem st b).2 (toString st.nextId)).2.2.l2Queried
        = false := by
  have hc : (createItem st b).2.l1 =
      st.l1.set (toString st.nextId) ⟨st.nextId, nm, v⟩ := by
    simp [createItem, hval]
  have h1 : (createItem st b).1 = CreateResult.created ⟨st.nextId, nm, v⟩ := by
    simp [createItem, hval]
  have hget : ((createItem st b).2.l1.get (toString st.nextId)).1 =
      some ⟨st.nextId, nm, v⟩ := by
    rw [hc]
    exact st.l1.get_set_self _ _ hmax
  rw [readItem_memory_hit _ _ _ hget]
  exact ⟨h1, rfl, rfl, rfl⟩

/-- C5: every successful Create-item returning an item with assigned id N
is immediately followed, on Read-item(N), by an L1 hit: the response
source is the memory tier, and no Durable Store query is performed,
because the create populated L1 under key string(N). -/
theorem claim_C5_write_populates_l1 (st : SysState) (b : Body) (nm : String)
    (v : Option String)
    (hval : schemaValidate b = Except.ok (nm, v)) (hmax : 0 < st.l1.max) :
    ∃ item, (createItem st b).1 = CreateResult.created item ∧
      (readItem (createItem st b).2 (toString item.id)).1 =
        ReadResult.ok Source.memory item ∧
      (readItem (createItem st b).2 (toString item.id)).2.2.storeQueried
        = false := by
  obtain ⟨h1, h2, h3, _⟩ := create_then_read st b nm v hval hmax
  exact ⟨⟨st.nextId, nm, v⟩, h1, h2, h3⟩

/-- State for the C5 witness: an empty system about to assign id 1. -/
def c5w : SysState := ⟨⟨100, []⟩, true, [], [], 1, 0, 0⟩

/-- Concrete run of C5: creating an item in c5w and reading it back hits
the memory tier without a store query. -/
theorem claim_C5_write_populates_l1_witness :
    (schemaValidate ⟨some (JsVal.jstr "foo"), some (JsVal.jstr "bar")⟩ =
        Except.ok ("foo", some "bar") ∧ 0 < c5w.l1.max) ∧
    ∃ item,
      (createItem c5w ⟨some (JsVal.jstr "foo"), some (JsVal.jstr "bar")⟩).1 =
        CreateResult.created item ∧
      (readItem
          (createItem c5w ⟨some (JsVal.jstr "foo"), some (JsVal.jstr "bar")⟩).2
          (toString item.id)).1 = ReadResult.ok Source.memory item ∧
      (readItem
          (createItem c5w ⟨some (JsVal.jstr "foo"), some (JsVal.jstr "bar")⟩).2
          (toString item.id)).2.2.storeQueried = false :=
  ⟨⟨rfl, by decide⟩,
    claim_C5_write_populates_l1 c5w
      ⟨some (JsVal.jstr "foo"), some (JsVal.jstr "bar")⟩ "foo" (some "bar")
      rfl (by decide)⟩

/-- C6: creating an item with any non-empty name and any string value and
then reading the returned id yields an item whose name and value are
identical to the ones supplied at creation. -/
theorem claim_C6_round_trip (st : SysState) (nm v : String)
    (hn : nm ≠ "") (hmax : 0 < st.l1.max) :
    ∃ item,
      (createItem st ⟨some (JsVal.jstr nm), some (JsVal.jstr v)⟩).1 =
        CreateResult.created item ∧
      item.name = nm ∧ item.value = some v ∧
      ∃ src item2,
        (readItem
            (createItem st ⟨some (JsVal.jstr nm), some (JsVal.jstr v)⟩).2
            (toString item.id)).1 = ReadResult.ok src item2 ∧
        item2.name = nm ∧ item2.value = some v := by
  have hval : schemaValidate ⟨some (JsVal.jstr nm), some (JsVal.jstr v)⟩ =
      Except.ok (nm, some v) := by
    simp [schemaValidate, hn]
  obtain ⟨h1, h2, _, _⟩ :=
    create_then_read st ⟨some (JsVal.jstr nm), some (JsVal.jstr v)⟩ nm
      (some v) hval hmax
  exact ⟨⟨st.nextId, nm, some v⟩, h1, rfl, rfl,
    Source.memory, ⟨st.nextId, nm, some v⟩, h2, rfl, rfl⟩

/-- State for the C6 witness. -/
def c6w : SysState := ⟨⟨3, []⟩, true, [], [], 1, 0, 0⟩

/-- Concrete run of C6 at name foo and value bar. -/
theorem claim_C6_round_trip_witness :
    ("foo" ≠ "" ∧ 0 < c6w.l1.max) ∧
    ∃ item,
      (createItem c6w ⟨some (JsVal.jstr "foo"), some (JsVal.jstr "bar")⟩).1 =
        CreateResult.created item ∧
      item.name = "foo" ∧ item.value = some "bar" ∧
      ∃ src item2,
        (readItem
            (createItem c6w
              ⟨some (JsVal.jstr "foo"), some (JsVal.jstr "bar")⟩).2
            (toString item.id)).1 = ReadResult.ok src item2 ∧
        item2.name = "foo" ∧ item2.value = some "bar" :=
  ⟨⟨by decide, by decide⟩,
    claim_C6_round_trip c6w "foo" "bar" (by decide) (by decide)⟩

/-- C7: a create with an empty name and a create with the name missing
both fail Joi validation with a 400 response, and the whole system state
— in particular the Durable Store — is returned unchanged, since the
handler returns before any store or cache access. -/
theorem claim_C7_validation_rejects (st : SysState) :
    (∃ m, createItem st ⟨some (JsVal.jstr ""), none⟩ =
      (CreateResult.badRequest m, st)) ∧
    (∃ m, createItem st ⟨none, none⟩ = (CreateResult.badRequest m, st)) :=
  ⟨⟨_, rfl⟩, ⟨_, rfl⟩⟩

/-- C8: whenever validation fails, the create handler returns 400 with the
Joi message and the state — L1, L2 and the Durable Store alike — is left
exactly as it was: a rejected create has no observable effect. -/
theorem claim_C8_rejected_create_no_effect (st : SysState) (b : Body)
    (msg : String) (h : schemaValidate b = Except.error msg) :
    createItem st b = (CreateResult.badRequest msg, st) := by
  unfold createItem
  rw [h]

/-- A populated state for the C8 witness. -/
def c8w : SysState :=
  ⟨⟨100, [("1", ⟨1, "a", none⟩)]⟩, true, [("1", ⟨1, "a", none⟩)],
    [⟨1, "a", none⟩], 2, 3, 4⟩

/-- Concrete run of C8: a body whose name is a number is rejected and the
populated state c8w comes back untouched. -/
theorem claim_C8_rejected_create_no_effect_witness :
    schemaValidate ⟨some (JsVal.jnum 3), none⟩ =
      Except.error "name must be a string" ∧
    createItem c8w ⟨some (JsVal.jnum 3), none⟩ =
      (CreateResult.badRequest "name must be a string", c8w) :=
  ⟨rfl, claim_C8_rejected_create_no_effect c8w ⟨some (JsVal.jnum 3), none⟩
    ("name must be a string") rfl⟩

/-- C9: the read handler never mutates the Durable Store (nor the id
counter or the L2 reachability); its counter effect is exactly one
increment of one of the two metrics counters, except when the L2 failure
aborts the request, in which case nothing at all changes; and the Shared
Cache entries change only when the read was served by the store tier, in
which case the retrieved item is written back under the requested id. -/
theorem claim_C9_read_frame (st : SysState) (id : String) :
    (readItem st id).2.1.store = st.store ∧
    (readItem st id).2.1.nextId = st.nextId ∧
    (readItem st id).2.1.l2avail = st.l2avail ∧
    ((readItem st id).2.1.hits + (readItem st id).2.1.misses =
      st.hits + st.misses +
        (if (readItem st id).1 = ReadResult.l2Error then 0 else 1)) ∧
    ((readItem st id).2.1.l2 = st.l2 ∨
      ∃ it, (readItem st id).1 = ReadResult.ok Source.store it ∧
        (readItem st id).2.1.l2 = l2put st.l2 id it) := by
  unfold readItem
  rcases hp : st.l1.get id with ⟨o, c⟩
  cases o with
  | some x => simp [hp]; omega
  | none =>
      by_cases ha : st.l2avail
      · cases hl : st.l2.lookup id with
        | some p => simp [hp, ha, hl]; omega
        | none =>
            cases hd : storeFind st.store id with
            | none => simp [hp, ha, hl, hd]; omega
            | some it => simp [hp, ha, hl, hd]; omega
      · simp [hp, ha]

/-- C10: with a valid name, a create whose value field holds a non-string,
non-null JSON value is rejected with the Joi message and the state is
unchanged, while value absent, value null and the empty-string value are
all accepted (null and absence both yielding a NULL value column). -/
theorem claim_C10_value_validation (st : SysState) (nm : String)
    (hn : nm ≠ "") (v : JsVal) (hns : ∀ s, v ≠ JsVal.jstr s)
    (hnn : v ≠ JsVal.jnull) :
    createItem st ⟨some (JsVal.jstr nm), some v⟩ =
      (CreateResult.badRequest "value must be a string", st) ∧
    (createItem st ⟨some (JsVal.jstr nm), none⟩).1 =
      CreateResult.created ⟨st.nextId, nm, none⟩ ∧
    (createItem st ⟨some (JsVal.jstr nm), some JsVal.jnull⟩).1 =
      CreateResult.created ⟨st.nextId, nm, none⟩ ∧
    (createItem st ⟨some (JsVal.jstr nm), some (JsVal.jstr "")⟩).1 =
      CreateResult.created ⟨st.nextId, nm, some ""⟩ := by
  refine ⟨?_, ?_, ?_, ?_⟩
  · cases v with
    | jstr s => exact absurd rfl (hns s)
    | jnull => exact absurd rfl hnn
    | jnum n => simp [createItem, schemaValidate, hn]
    | jbool b => simp [createItem, schemaValidate, hn]
    | jobj => simp [createItem, schemaValidate, hn]
  · simp [createItem, schemaValidate, hn]
  · simp [createItem, schemaValidate, hn]
  · simp [createItem, schemaValidate, hn]

/-- An empty state for the C10 witness. -/
def c10w : SysState := ⟨⟨100, []⟩, true, [], [], 1, 0, 0⟩

/-- Concrete run of C10 with a numeric value field (rejected) and with
the three accepted value shapes. -/
theorem claim_C10_value_validation_witness :
    ("foo" : String) ≠ "" ∧
    createItem c10w ⟨some (JsVal.jstr "foo"), some (JsVal.jnum 5)⟩ =
      (CreateResult.badRequest "value must be a string", c10w) ∧
    (createItem c10w ⟨some (JsVal.jstr "foo"), none⟩).1 =
      CreateResult.created ⟨1, "foo", none⟩ ∧
    (createItem c10w ⟨some (JsVal.jstr "foo"), some JsVal.jnull⟩).1 =
      CreateResult.created ⟨1, "foo", none⟩ ∧
    (createItem c10w ⟨some (JsVal.jstr "foo"), some (JsVal.jstr "")⟩).1 =
      CreateResult.created ⟨1, "foo", some ""⟩ :=
  ⟨by decide,
    claim_C10_value_validation c10w "foo" (by decide) (JsVal.jnum 5)
      (fun s => by simp) (by simp)⟩
